import Mathlib

/-!
Formal model of the evaluator core of the `ai-eval-toolkit` repository.

The development shallowly embeds the result record (`EvalResult`), the
deterministic evaluators (`IncludesEvaluator`, `JSONMatchEvaluator`), the
judge-graded evaluators (`CriteriaEvaluator`, `HeadToHeadEvaluator`) and the
suite operations (`run_suite`, `aggregate_results`).

Modelling conventions:
* Python numbers (int/float) are modelled by `ℚ`; the floating-point rendering
  used only inside human-readable reasoning strings is elided.
* Python exceptions are modelled by `Except String`: a function whose Python
  counterpart may raise returns `Except String α`, and `.error` marks an
  exception escaping that piece of code.  An evaluator's `evaluate` therefore
  has result type `Except String EvalResult`: `.ok` means the call returned a
  result record, `.error` means an exception propagated past the evaluator
  boundary.
* `json.loads` and the judge-model invocation are external to the repository;
  their outcome (a parsed value, or a raised exception) is an input of type
  `Except String Json` to the functions that consume them.
-/

/-- JSON values as produced by parsing candidate text or a judge response.
Objects are association lists in insertion order. -/
inductive Json where
  | null : Json
  | bool : Bool → Json
  | num : ℚ → Json
  | str : String → Json
  | arr : List Json → Json
  | obj : List (String × Json) → Json

/-- Key-set inclusion between two JSON objects: every key of `a` occurs among
the keys of `b`. -/
def keysIncluded (a b : List (String × Json)) : Bool :=
  a.all (fun p => b.any (fun q => q.1 == p.1))

mutual
/-- Python `==` on parsed JSON values: `True == 1` holds (bools are numeric),
dictionaries compare as unordered key/value maps, lists compare pointwise,
values of different kinds otherwise compare unequal. -/
def pyEq : Json → Json → Bool
  | .null, .null => true
  | .bool a, .bool c => a == c
  | .bool a, .num y => decide ((if a then (1 : ℚ) else 0) = y)
  | .num x, .bool c => decide (x = (if c then (1 : ℚ) else 0))
  | .num x, .num y => decide (x = y)
  | .str a, .str c => a == c
  | .arr a, .arr c => pyEqList a c
  | .obj a, .obj c => pyEqObjFwd a c && keysIncluded c a
  | _, _ => false
termination_by a c => sizeOf a + sizeOf c
decreasing_by all_goals (simp_wf; omega)
/-- Pointwise Python `==` on two JSON arrays. -/
def pyEqList : List Json → List Json → Bool
  | [], [] => true
  | x :: xs, y :: ys => pyEq x y && pyEqList xs ys
  | _, _ => false
termination_by a c => sizeOf a + sizeOf c
decreasing_by all_goals (simp_wf; omega)
/-- Every entry of the first object finds an equal value under its key in the
second object. -/
def pyEqObjFwd : List (String × Json) → List (String × Json) → Bool
  | [], _ => true
  | (k, v) :: rest, c => findValEq k v c && pyEqObjFwd rest c
termination_by a c => sizeOf a + sizeOf c
decreasing_by all_goals (simp_wf <;> omega)
/-- Look up key `k` in an object and compare the stored value with `v`. -/
def findValEq : String → Json → List (String × Json) → Bool
  | _, _, [] => false
  | k, v, (k2, w) :: rest => if k2 == k then pyEq v w else findValEq k v rest
termination_by _ v c => sizeOf v + sizeOf c
decreasing_by all_goals (simp_wf <;> omega)
end

/-- The `score` field of a result record: `Union[float, int, bool]` in the
source (`ℚ` models both numeric kinds), plus a catch-all for any other value
reaching the normalization fallback. -/
inductive Score where
  | num : ℚ → Score
  | bool : Bool → Score
  | other : Score
  deriving DecidableEq

mutual
/-- The standard evaluation result record: `score`, optional `reasoning`
text, string-keyed `metadata`, and the `passed` flag. -/
inductive EvalResult where
  | mk : Score → Option String → List (String × MetaVal) → Bool → EvalResult
/-- Values stored in a result's metadata mapping (`Dict[str, Any]`). -/
inductive MetaVal where
  | js : Json → MetaVal
  | s : String → MetaVal
  | q : ℚ → MetaVal
  | n : Nat → MetaVal
  | b : Bool → MetaVal
  | sl : List String → MetaVal
  | nil : MetaVal
  | results : List (String × EvalResult) → MetaVal
end

/-- Projection: the `score` field. -/
def EvalResult.score : EvalResult → Score
  | .mk x _ _ _ => x

/-- Projection: the `reasoning` field. -/
def EvalResult.reasoning : EvalResult → Option String
  | .mk _ x _ _ => x

/-- Projection: the `metadata` field. -/
def EvalResult.metadata : EvalResult → List (String × MetaVal)
  | .mk _ _ x _ => x

/-- Projection: the `passed` field. -/
def EvalResult.passed : EvalResult → Bool
  | .mk _ _ _ x => x

/-- Derived `EvalResult.normalized_score`: booleans map to 1 or 0, numbers are clamped
into `[0, 1]`, anything else maps to 0. -/
def EvalResult.normalized_score (r : EvalResult) : ℚ :=
  match r.score with
  | .bool c => if c then 1 else 0
  | .num x => max 0 (min 1 x)
  | .other => 0

/-- Does the character list `hay` start with `need`? -/
def listStartsWith : List Char → List Char → Bool
  | [], _ => true
  | _ :: _, [] => false
  | c :: cs, d :: ds => c == d && listStartsWith cs ds

/-- Does the character list `hay` contain `need` as a contiguous run?
(The empty needle is always contained, as for Python's `in`.) -/
def listContainsSub : List Char → List Char → Bool
  | hay, need =>
    match hay with
    | [] => need.isEmpty
    | _ :: rest => listStartsWith need hay || listContainsSub rest need

/-- Python's `need in hay` substring test. -/
def strContains (hay need : String) : Bool :=
  listContainsSub hay.toList need.toList

/-- The `expected` argument of `IncludesEvaluator.evaluate`:
`Union[str, List[str]]`. -/
inductive StrOrList where
  | s : String → StrOrList
  | l : List String → StrOrList

/-- Model of `IncludesEvaluator.evaluate` (src/evaluators/basic.py lines 47-72): coerce
a single string to a one-element list, case-fold unless case-sensitive, count
the required items found in the candidate, `score = found/required`, `passed`
iff every item was found.  With an empty required list the Python source
raises `ZeroDivisionError` at `score = len(found_items) / len(expected)`. -/
def IncludesEvaluator.evaluate (case_sensitive : Bool) (completion : String)
    (expected : StrOrList) : Except String EvalResult :=
  let items := match expected with | .s v => [v] | .l v => v
  let completion_text := if case_sensitive then completion else completion.toLower
  let found_items := items.filter
    (fun item => strContains completion_text (if case_sensitive then item else item.toLower))
  if items.length = 0 then
    .error "ZeroDivisionError: division by zero"
  else
    let score : ℚ := (found_items.length : ℚ) / (items.length : ℚ)
    let passed := decide (score = 1)
    .ok (.mk (.num score)
      (some ("Found " ++ toString found_items.length ++ "/" ++ toString items.length
        ++ " required items: " ++ String.intercalate ", " found_items))
      [("expected_items", .sl items),
       ("found_items", .sl found_items),
       ("missing_items", .sl (items.filter (fun item => !(found_items.contains item))))]
      passed)

/-- Python `key in container` for a string key: key membership for a dict,
element membership for a list, substring test for a string; a `TypeError`
escapes for any other value. -/
def pyContains (container : Json) (k : String) : Except String Bool :=
  match container with
  | .obj fields => .ok (fields.any (fun p => p.1 == k))
  | .arr xs => .ok (xs.any (fun x => pyEq x (.str k)))
  | .str s => .ok (strContains s k)
  | _ => .error "TypeError: argument is not iterable"

/-- Python `container[key]` for a string key: only a dict succeeds (first
matching entry); a missing key is a `KeyError`, any other container kind a
`TypeError`. -/
def pyGetItem (container : Json) (k : String) : Except String Json :=
  match container with
  | .obj fields =>
    match fields.find? (fun p => p.1 == k) with
    | some p => .ok p.2
    | none => .error "KeyError"
  | _ => .error "TypeError: indices must be integers"

/-- Python `len` on a parsed JSON value; numbers, booleans and `None` have no
length and raise `TypeError`. -/
def pyLen (j : Json) : Except String Nat :=
  match j with
  | .obj fields => .ok fields.length
  | .arr xs => .ok xs.length
  | .str s => .ok s.length
  | _ => .error "TypeError: object has no len"

/-- Python `list(v.keys())`: only a dict has `.keys()`. -/
def pyKeys (j : Json) : Except String (List String) :=
  match j with
  | .obj fields => .ok (fields.map (fun p => p.1))
  | _ => .error "AttributeError: object has no attribute keys"

/-- Python `v.items()`: only a dict has `.items()`. -/
def pyItems (j : Json) : Except String (List (String × Json)) :=
  match j with
  | .obj fields => .ok fields
  | _ => .error "AttributeError: object has no attribute items"

/-- The `missing_keys` loop of `JSONMatchEvaluator.evaluate`: the required
keys not contained in the parsed candidate, in order; the first `in` test on
an unsupported candidate kind raises. -/
def missingKeysE (keys : List String) (comp : Json) : Except String (List String) :=
  match keys with
  | [] => .ok []
  | k :: rest =>
    match pyContains comp k with
    | .error e => .error e
    | .ok c =>
      match missingKeysE rest comp with
      | .error e => .error e
      | .ok ms => .ok (if c then ms else k :: ms)

/-- The `matching_keys` loop of `JSONMatchEvaluator.evaluate`: count the
expected entries `(key, value)` with `key in completion_data and
completion_data[key] == value`, raising where Python would. -/
def matchingCountE (fields : List (String × Json)) (comp : Json) : Except String Nat :=
  match fields with
  | [] => .ok 0
  | (k, v) :: rest =>
    match pyContains comp k with
    | .error e => .error e
    | .ok c =>
      match (if c then
               match pyGetItem comp k with
               | .error e => .error e
               | .ok w => .ok (if pyEq w v then (1 : Nat) else 0)
             else .ok 0 : Except String Nat) with
      | .error e => .error e
      | .ok add =>
        match matchingCountE rest comp with
        | .error e => .error e
        | .ok m => .ok (add + m)

/-- Partial-mode score of `JSONMatchEvaluator.evaluate`:
`(matching_keys + required_keys_present) / (len(expected_data) +
len(required_keys))`, or 1 when the denominator is 0; `len` and `.items()` on
unsupported expected kinds raise. -/
def jsonPartialScoreE (required_keys : List String) (comp exp : Json)
    (missing : List String) : Except String ℚ :=
  match pyLen exp with
  | .error e => .error e
  | .ok elen =>
    if elen + required_keys.length = 0 then .ok 1
    else
      match pyItems exp with
      | .error e => .error e
      | .ok fields =>
        match matchingCountE fields comp with
        | .error e => .error e
        | .ok matching =>
          .ok (((matching : ℚ) + ((required_keys.length - missing.length : Nat) : ℚ))
            / ((elen + required_keys.length : Nat) : ℚ))

/-- The metadata mapping built by `JSONMatchEvaluator.evaluate` on the
non-error path. -/
def jsonMatchMeta (ckeys ekeys missing : List String) (exact_match : Bool) :
    List (String × MetaVal) :=
  [("completion_keys", .sl ckeys),
   ("expected_keys", .sl ekeys),
   ("missing_required_keys", .sl missing),
   ("exact_match", .b exact_match)]

/-- Model of `JSONMatchEvaluator.evaluate` (src/evaluators/basic.py lines 108-173).
`completionParsed` is the outcome of `json.loads(completion)` and
`expectedParsed` the outcome of parsing `expected` when given as text (or the
structured value passed through): a parse failure there is converted to a
zero-score failed result.  After the guarded parses the body can still raise
(modelled by `.error`) when a parsed value does not support the dict
operations applied to it. -/
def JSONMatchEvaluator.evaluate (exact_match : Bool) (required_keys : List String)
    (completionParsed expectedParsed : Except String Json) : Except String EvalResult :=
  match completionParsed with
  | .error e =>
    .ok (.mk (.num 0) (some ("Invalid JSON in completion: " ++ e))
      [("parse_error", .s e)] false)
  | .ok completion_data =>
    match expectedParsed with
    | .error e =>
      .ok (.mk (.num 0) (some ("Invalid JSON in expected: " ++ e))
        [("expected_parse_error", .s e)] false)
    | .ok expected_data =>
      match missingKeysE required_keys completion_data with
      | .error e => .error e
      | .ok missing_keys =>
        if exact_match then
          let passed := pyEq completion_data expected_data && missing_keys.isEmpty
          match pyKeys completion_data with
          | .error e => .error e
          | .ok ckeys =>
            match pyKeys expected_data with
            | .error e => .error e
            | .ok ekeys =>
              .ok (.mk (.num (if passed then 1 else 0))
                (some (if passed then "Exact JSON match" else "JSON structures differ"))
                (jsonMatchMeta ckeys ekeys missing_keys true) passed)
        else
          match jsonPartialScoreE required_keys completion_data expected_data missing_keys with
          | .error e => .error e
          | .ok score =>
            let passed := decide (score ≥ 4/5) && missing_keys.isEmpty
            match pyKeys completion_data with
            | .error e => .error e
            | .ok ckeys =>
              match pyKeys expected_data with
              | .error e => .error e
              | .ok ekeys =>
                .ok (.mk (.num score)
                  (some ("JSON similarity: " ++ toString score ++ ", Missing keys: "
                    ++ String.intercalate ", " missing_keys))
                  (jsonMatchMeta ckeys ekeys missing_keys false) passed)

/-- First value stored under key `k` in a parsed JSON object. -/
def jsonLookup (fields : List (String × Json)) (k : String) : Option Json :=
  (fields.find? (fun p => p.1 == k)).map (fun p => p.2)

/-- Python `result_data.get(k, d)`: the stored value, or the default. -/
def jsonGetD (fields : List (String × Json)) (k : String) (d : Json) : Json :=
  (jsonLookup fields k).getD d

/-- Python numeric coercion as used by arithmetic on judge-response fields:
numbers are themselves, booleans are 1 or 0, anything else raises
`TypeError`. -/
def toNumber (j : Json) : Except String ℚ :=
  match j with
  | .num x => .ok x
  | .bool c => .ok (if c then 1 else 0)
  | _ => .error "TypeError: unsupported operand type"

/-- Validation of a judge-supplied value against the result record's
`Optional[str]` reasoning field: text passes through, JSON `null` becomes the
absent value, anything else fails validation. -/
def toOptStr (j : Json) : Except String (Option String) :=
  match j with
  | .str s => .ok (some s)
  | .null => .ok none
  | _ => .error "ValidationError: reasoning must be a string"

/-- Python `v.get(...)` requires a dict; any other parsed response value
raises `AttributeError`. -/
def asDict (j : Json) : Except String (List (String × Json)) :=
  match j with
  | .obj fields => .ok fields
  | _ => .error "AttributeError: object has no attribute get"

/-- The `try` block of `CriteriaEvaluator.evaluate` (src/evaluators/
llm_judge.py lines 91-108), starting from the combined outcome of
`self._call_model` and `json.loads` (`response`): read `overall_score`
defaulting to 0, normalize by 5, pass at 0.6 or better. -/
def CriteriaEvaluator.tryBody (provider model : String)
    (criteria : List (String × String)) (response : Except String Json) :
    Except String EvalResult :=
  match response with
  | .error e => .error e
  | .ok data =>
    match asDict data with
    | .error e => .error e
    | .ok fields =>
      match toNumber (jsonGetD fields "overall_score" (.num 0)) with
      | .error e => .error e
      | .ok overallRaw =>
        let overall_score := overallRaw / 5
        let passed := decide (overall_score ≥ 3/5)
        match toOptStr (jsonGetD fields "summary" (.str "No summary provided")) with
        | .error e => .error e
        | .ok reasoning =>
          .ok (.mk (.num overall_score) reasoning
            [("detailed_scores", .js (jsonGetD fields "scores" (.obj []))),
             ("detailed_reasoning", .js (jsonGetD fields "reasoning" (.str ""))),
             ("criteria", .js (.obj (criteria.map (fun p => (p.1, Json.str p.2))))),
             ("model_used", .s (provider ++ ":" ++ model))]
            passed)

/-- Model of `CriteriaEvaluator.evaluate` (src/evaluators/llm_judge.py lines 91-116):
the `try` body, with any raised error converted to a zero-score failed
result. -/
def CriteriaEvaluator.evaluate (provider model : String)
    (criteria : List (String × String)) (response : Except String Json) :
    Except String EvalResult :=
  match CriteriaEvaluator.tryBody provider model criteria response with
  | .ok r => .ok r
  | .error e =>
    .ok (.mk (.num 0) (some ("Model evaluation failed: " ++ e))
      [("error", .s e)] false)

/-- The `try` block of `HeadToHeadEvaluator.evaluate` (src/evaluators/
llm_judge.py lines 266-296): winner defaulting to `"Tie"`, side scores
defaulting to 3, confidence defaulting to 1 and divided by 5 before the
winner branch; winner `"A"` scores 1.0/passed, `"B"` scores 0.0/failed,
anything else is a tie scoring 0.5 with `passed` iff the side scores differ
by at most 1. -/
def HeadToHeadEvaluator.tryBody (alternative criteria : String)
    (response : Except String Json) : Except String EvalResult :=
  match response with
  | .error e => .error e
  | .ok data =>
    match asDict data with
    | .error e => .error e
    | .ok fields =>
      let winner := jsonGetD fields "winner" (.str "Tie")
      let a_score := jsonGetD fields "response_a_score" (.num 3)
      match toNumber (jsonGetD fields "confidence" (.num 1)) with
      | .error e => .error e
      | .ok confRaw =>
        let confidence := confRaw / 5
        match (if pyEq winner (.str "A") then .ok ((1 : ℚ), true)
               else if pyEq winner (.str "B") then .ok ((0 : ℚ), false)
               else
                 match toNumber a_score with
                 | .error e => .error e
                 | .ok aNum =>
                   match toNumber (jsonGetD fields "response_b_score" (.num 3)) with
                   | .error e => .error e
                   | .ok bNum => .ok ((1/2 : ℚ), decide (|aNum - bNum| ≤ 1))
               : Except String (ℚ × Bool)) with
        | .error e => .error e
        | .ok sp =>
          match toOptStr (jsonGetD fields "reasoning" (.str "No reasoning provided")) with
          | .error e => .error e
          | .ok reasoning =>
            .ok (.mk (.num sp.1) reasoning
              [("winner", .js winner),
               ("confidence", .q confidence),
               ("response_a_score", .js a_score),
               ("response_b_score",
                 (match jsonLookup fields "response_b_score" with
                  | some j => MetaVal.js j
                  | none => MetaVal.nil)),
               ("alternative_response", .s alternative),
               ("comparison_criteria", .s criteria)]
              sp.2)

/-- Model of `HeadToHeadEvaluator.evaluate` (src/evaluators/llm_judge.py lines
266-304): the `try` body, with any raised error converted to a zero-score
failed result. -/
def HeadToHeadEvaluator.evaluate (alternative criteria : String)
    (response : Except String Json) : Except String EvalResult :=
  match HeadToHeadEvaluator.tryBody alternative criteria response with
  | .ok r => .ok r
  | .error e =>
    .ok (.mk (.num 0) (some ("Head-to-head evaluation failed: " ++ e))
      [("error", .s e)] false)

/-- An evaluator as seen by the suite: a name and an `evaluate` callable; the
callable's `.error` outcome models an exception raised by `evaluate`. -/
structure SuiteEvaluator where
  name : String
  run : String → Json → Except String EvalResult

/-- Python dict assignment `results[name] = r`: replace in place when the key
exists, append otherwise. -/
def upsert (m : List (String × EvalResult)) (k : String) (v : EvalResult) :
    List (String × EvalResult) :=
  match m with
  | [] => [(k, v)]
  | (k2, v2) :: rest => if k2 == k then (k2, v) :: rest else (k2, v2) :: upsert rest k v

/-- The loop of `EvaluationSuite.run_suite` (src/evaluators/base.py lines
77-97) from an accumulated results mapping: for each evaluator in order, look
up the test-case field named after it (skip when absent), run `evaluate`, and
store the result — or, when `evaluate` raises, a zero-score failed result —
under the evaluator's name. -/
def EvaluationSuite.run_suite_from (evaluators : List SuiteEvaluator)
    (completion : String) (test_case : String → Option Json)
    (results : List (String × EvalResult)) : List (String × EvalResult) :=
  match evaluators with
  | [] => results
  | ev :: rest =>
    let results2 :=
      match test_case ev.name with
      | none => results
      | some expected =>
        match ev.run completion expected with
        | .ok r => upsert results ev.name r
        | .error e =>
          upsert results ev.name
            (.mk (.num 0) (some ("Evaluation failed: " ++ e)) [("error", .s e)] false)
    EvaluationSuite.run_suite_from rest completion test_case results2

/-- Model of `EvaluationSuite.run_suite`: run every evaluator against the completion
and test case, starting from the empty results mapping. -/
def EvaluationSuite.run_suite (evaluators : List SuiteEvaluator)
    (completion : String) (test_case : String → Option Json) :
    List (String × EvalResult) :=
  EvaluationSuite.run_suite_from evaluators completion test_case []

/-- Model of `EvaluationSuite.aggregate_results` (src/evaluators/base.py lines
99-119): empty input gives score 0.0 and failed; otherwise the score is the
mean of the normalized scores and `passed` holds iff the fraction of
individually passed results is at least one half. -/
def EvaluationSuite.aggregate_results (results : List (String × EvalResult)) :
    EvalResult :=
  if results.length = 0 then
    .mk (.num 0) (some "No results to aggregate") [] false
  else
    let scores := results.map (fun p => p.2.normalized_score)
    let passed_count := results.countP (fun p => p.2.passed)
    let avg_score := scores.sum / (scores.length : ℚ)
    let pass_rate := (passed_count : ℚ) / (results.length : ℚ)
    .mk (.num avg_score)
      (some ("Average score: " ++ toString avg_score ++ ", Pass rate: " ++ toString pass_rate))
      [("individual_results", .results results),
       ("pass_rate", .q pass_rate),
       ("total_evaluators", .n results.length)]
      (decide (pass_rate ≥ 1/2))

/-- Results mapping used to witness the aggregation claim: three results of
which two passed. -/
def rs3 : List (String × EvalResult) :=
  [("match", .mk (.num 1) none [] true),
   ("includes", .mk (.bool true) none [] true),
   ("json_match", .mk (.num 0) none [] false)]

/-- C1: `aggregate_results` of a non-empty mapping scores the arithmetic mean
of the normalized scores and passes exactly when the fraction of individually
passed results is at least one half (the exact tie passing); the empty
mapping yields score 0.0 and failed. -/
theorem aggregate_results_spec :
    EvaluationSuite.aggregate_results []
        = .mk (.num 0) (some "No results to aggregate") [] false
    ∧ ∀ results : List (String × EvalResult), results ≠ [] →
      (EvaluationSuite.aggregate_results results).score
          = .num ((results.map (fun p => p.2.normalized_score)).sum / (results.length : ℚ))
        ∧ ((EvaluationSuite.aggregate_results results).passed = true
            ↔ ((results.countP (fun p => p.2.passed) : ℚ) / (results.length : ℚ) ≥ 1/2)) := by
  constructor
  · rfl
  · intro results h
    have hlen : ¬ results.length = 0 := by
      intro hl
      exact h (List.length_eq_zero.mp hl)
    constructor
    · simp [EvaluationSuite.aggregate_results, hlen, EvalResult.score]
    · simp [EvaluationSuite.aggregate_results, hlen, EvalResult.passed]

/-- Witness for C1: over three results of which two passed, the theorem
applies and gives the majority-pass verdict. -/
theorem aggregate_results_spec_witness :
    rs3 ≠ []
    ∧ ((EvaluationSuite.aggregate_results rs3).score
          = .num ((rs3.map (fun p => p.2.normalized_score)).sum / (rs3.length : ℚ))
        ∧ ((EvaluationSuite.aggregate_results rs3).passed = true
            ↔ ((rs3.countP (fun p => p.2.passed) : ℚ) / (rs3.length : ℚ) ≥ 1/2))) :=
  ⟨by simp [rs3], aggregate_results_spec.2 rs3 (by simp [rs3])⟩

/-- C7: every result's normalized score is defined and lies in `[0, 1]`; a
boolean score maps to 1 or 0, a numeric score is clamped into `[0, 1]`, and a
score of any other kind maps to 0. -/
theorem normalized_score_spec :
    (∀ r : EvalResult, 0 ≤ r.normalized_score ∧ r.normalized_score ≤ 1)
    ∧ (∀ (c : Bool) (re : Option String) (md : List (String × MetaVal)) (p : Bool),
        (EvalResult.mk (.bool c) re md p).normalized_score = if c then 1 else 0)
    ∧ (∀ (x : ℚ) (re : Option String) (md : List (String × MetaVal)) (p : Bool),
        (EvalResult.mk (.num x) re md p).normalized_score = max 0 (min 1 x))
    ∧ (∀ (re : Option String) (md : List (String × MetaVal)) (p : Bool),
        (EvalResult.mk Score.other re md p).normalized_score = 0) := by
  refine ⟨?_, fun _ _ _ _ => rfl, fun _ _ _ _ => rfl, fun _ _ _ => rfl⟩
  intro r
  cases r with
  | mk sc re md p =>
    cases sc with
    | num x =>
      constructor
      · exact le_max_left 0 _
      · exact max_le (by norm_num) (min_le_left 1 x)
    | bool c => cases c <;> norm_num [EvalResult.normalized_score, EvalResult.score]
    | other => norm_num [EvalResult.normalized_score, EvalResult.score]

/-- C4: when the candidate text is not valid JSON (`json.loads` raises),
`JSONMatchEvaluator.evaluate` returns — for every configuration and every
expected value — score 0.0, passed false, reasoning citing the parse error
and a `parse_error` metadata entry, and never raises. -/
theorem json_match_invalid_completion :
    ∀ (exact_match : Bool) (required_keys : List String) (e : String)
      (expectedParsed : Except String Json),
      JSONMatchEvaluator.evaluate exact_match required_keys (.error e) expectedParsed
        = .ok (.mk (.num 0) (some ("Invalid JSON in completion: " ++ e))
            [("parse_error", .s e)] false) :=
  fun _ _ _ _ => rfl

/-- Counterexample to C3: `IncludesEvaluator.evaluate` on an empty required
list lets a `ZeroDivisionError` propagate past the evaluator boundary, so not
every evaluation error is caught inside `evaluate`. -/
theorem includes_empty_required_raises :
    IncludesEvaluator.evaluate false "any completion" (.l [])
      = .error "ZeroDivisionError: division by zero" := rfl

/-- C3 (amended): the evaluators that guard their bodies do confine errors —
`JSONMatchEvaluator.evaluate` converts a malformed candidate or expected
structure, and the judge evaluators convert a provider invocation failure or
malformed judge response, into a result with score 0.0, passed false and
diagnostic text — but `IncludesEvaluator.evaluate` has no such guard and can
propagate an error. -/
theorem evaluation_errors_confined :
    (∀ (exact_match : Bool) (required_keys : List String) (e : String)
       (expectedParsed : Except String Json),
       JSONMatchEvaluator.evaluate exact_match required_keys (.error e) expectedParsed
         = .ok (.mk (.num 0) (some ("Invalid JSON in completion: " ++ e))
             [("parse_error", .s e)] false))
    ∧ (∀ (exact_match : Bool) (required_keys : List String) (j : Json) (e : String),
       JSONMatchEvaluator.evaluate exact_match required_keys (.ok j) (.error e)
         = .ok (.mk (.num 0) (some ("Invalid JSON in expected: " ++ e))
             [("expected_parse_error", .s e)] false))
    ∧ (∀ (provider model : String) (criteria : List (String × String)) (e : String),
       CriteriaEvaluator.evaluate provider model criteria (.error e)
         = .ok (.mk (.num 0) (some ("Model evaluation failed: " ++ e))
             [("error", .s e)] false))
    ∧ (∀ (alternative criteria e : String),
       HeadToHeadEvaluator.evaluate alternative criteria (.error e)
         = .ok (.mk (.num 0) (some ("Head-to-head evaluation failed: " ++ e))
             [("error", .s e)] false)) :=
  ⟨fun _ _ _ _ => rfl, fun _ _ _ _ => rfl, fun _ _ _ _ => rfl, fun _ _ _ => rfl⟩

/-- The suite loop over a concatenation processes the first block and feeds
its results mapping into the second block. -/
theorem run_suite_from_append (xs ys : List SuiteEvaluator) (completion : String)
    (test_case : String → Option Json) (acc : List (String × EvalResult)) :
    EvaluationSuite.run_suite_from (xs ++ ys) completion test_case acc
      = EvaluationSuite.run_suite_from ys completion test_case
          (EvaluationSuite.run_suite_from xs completion test_case acc) := by
  induction xs generalizing acc with
  | nil => rfl
  | cons ev rest ih =>
    simp only [List.cons_append, EvaluationSuite.run_suite_from, List.append_eq, ih]

/-- C5: an exception raised by one evaluator during a suite run is recorded
as a zero-score failed result under exactly that evaluator's name, and the
remaining evaluators still run over the accumulated results mapping, which
the suite call still returns. -/
theorem run_suite_isolates_failure (pre post : List SuiteEvaluator)
    (ev : SuiteEvaluator) (completion : String) (test_case : String → Option Json)
    (expected : Json) (e : String)
    (hexp : test_case ev.name = some expected)
    (hrun : ev.run completion expected = .error e) :
    EvaluationSuite.run_suite (pre ++ ev :: post) completion test_case
      = EvaluationSuite.run_suite_from post completion test_case
          (upsert (EvaluationSuite.run_suite_from pre completion test_case []) ev.name
            (.mk (.num 0) (some ("Evaluation failed: " ++ e)) [("error", .s e)] false)) := by
  rw [EvaluationSuite.run_suite, run_suite_from_append]
  simp only [EvaluationSuite.run_suite_from, hexp, hrun]

/-- Suite evaluator that models an `evaluate` raising an exception. -/
def badEv : SuiteEvaluator :=
  ⟨"bad", fun _ _ => .error "boom"⟩

/-- Suite evaluator whose `evaluate` returns a passing result. -/
def okEv : SuiteEvaluator :=
  ⟨"ok", fun _ _ => .ok (.mk (.bool true) none [] true)⟩

/-- Witness for C5: in a two-evaluator suite whose first evaluator raises,
the theorem applies, so the failure is recorded under `"bad"` and the second
evaluator still runs. -/
theorem run_suite_isolates_failure_witness :
    (fun _ : String => some Json.null) badEv.name = some Json.null
    ∧ badEv.run "c" Json.null = .error "boom"
    ∧ EvaluationSuite.run_suite ([] ++ badEv :: [okEv]) "c" (fun _ => some Json.null)
        = EvaluationSuite.run_suite_from [okEv] "c" (fun _ => some Json.null)
            (upsert (EvaluationSuite.run_suite_from [] "c" (fun _ => some Json.null) []) badEv.name
              (.mk (.num 0) (some ("Evaluation failed: " ++ "boom")) [("error", .s "boom")] false)) :=
  ⟨rfl, rfl,
    run_suite_isolates_failure [] [okEv] badEv "c" (fun _ => some Json.null) Json.null "boom" rfl rfl⟩

/-- Appending one findable item to a non-empty list cannot decrease the found
fraction. -/
theorem filter_fraction_mono (p : String → Bool) (i newItem : String) (rest : List String)
    (hfound : p newItem = true) :
    (((i :: rest).filter p).length : ℚ) / ((i :: rest).length : ℚ)
      ≤ ((((i :: rest) ++ [newItem]).filter p).length : ℚ)
          / (((i :: rest) ++ [newItem]).length : ℚ) := by
  have h1 : (0 : ℚ) < ((i :: rest).length : ℚ) := by
    exact_mod_cast Nat.succ_pos rest.length
  have h2 : (0 : ℚ) < (((i :: rest) ++ [newItem]).length : ℚ) := by
    have hp : 0 < ((i :: rest) ++ [newItem]).length := by simp
    exact_mod_cast hp
  have hF : ((i :: rest) ++ [newItem]).filter p = ((i :: rest).filter p) ++ [newItem] := by
    rw [List.filter_append]
    simp [List.filter, hfound]
  have hle : (((i :: rest).filter p).length : ℚ) ≤ ((i :: rest).length : ℚ) := by
    exact_mod_cast List.length_filter_le p (i :: rest)
  rw [hF, div_le_div_iff₀ h1 h2]
  push_cast [List.length_append]
  nlinarith [hle]

/-- C8: adding to a non-empty required list a previously missing substring
that occurs in the (case-folded) candidate never decreases the score of
`IncludesEvaluator.evaluate`. -/
theorem includes_monotonic (case_sensitive : Bool) (completion newItem : String)
    (items : List String)
    (hne : items ≠ [])
    (_hmiss : newItem ∉ items)
    (hfound : strContains (if case_sensitive then completion else completion.toLower)
        (if case_sensitive then newItem else newItem.toLower) = true) :
    ∃ r1 r2 q1 q2,
      IncludesEvaluator.evaluate case_sensitive completion (.l items) = .ok r1
      ∧ IncludesEvaluator.evaluate case_sensitive completion (.l (items ++ [newItem])) = .ok r2
      ∧ r1.score = .num q1 ∧ r2.score = .num q2 ∧ q1 ≤ q2 := by
  obtain ⟨i, rest, rfl⟩ := List.exists_cons_of_ne_nil hne
  exact ⟨_, _, _, _, rfl, rfl, rfl, rfl,
    filter_fraction_mono _ i newItem rest hfound⟩

/-- Witness for C8: appending the findable item `"world"` to the list
`["hello"]` keeps both evaluations defined and does not decrease the
score. -/
theorem includes_monotonic_witness :
    (["hello"] : List String) ≠ [] ∧ "world" ∉ (["hello"] : List String)
    ∧ strContains (if true then "hello world" else "hello world".toLower)
        (if true then "world" else "world".toLower) = true
    ∧ ∃ r1 r2 q1 q2,
        IncludesEvaluator.evaluate true "hello world" (.l ["hello"]) = .ok r1
        ∧ IncludesEvaluator.evaluate true "hello world" (.l (["hello"] ++ ["world"])) = .ok r2
        ∧ r1.score = .num q1 ∧ r2.score = .num q2 ∧ q1 ≤ q2 :=
  ⟨by simp, by simp, by decide,
    includes_monotonic true "hello world" "world" ["hello"] (by simp) (by simp) (by decide)⟩

/-- Required keys missing from the candidate object (claim-side form of the
`missing_keys` loop). -/
def jsonMissingSpec (required_keys : List String) (cf : List (String × Json)) : List String :=
  required_keys.filter (fun k => !(cf.any (fun q => q.1 == k)))

/-- Does an expected entry's value deep-equal the candidate object's value at
the same key? -/
def jsonKeyHit (cf : List (String × Json)) (p : String × Json) : Bool :=
  match jsonLookup cf p.1 with
  | some w => pyEq w p.2
  | none => false

/-- Claim-side partial-mode score formula: matching expected keys plus
present required keys over expected keys plus required keys, defaulting to 1
on an empty denominator. -/
def jsonSimilaritySpec (required_keys : List String) (cf ef : List (String × Json)) : ℚ :=
  if ef.length + required_keys.length = 0 then 1
  else ((ef.countP (jsonKeyHit cf) : ℚ)
      + ((required_keys.length - (jsonMissingSpec required_keys cf).length : Nat) : ℚ))
    / ((ef.length + required_keys.length : Nat) : ℚ)

/-- On a candidate object the `missing_keys` loop never raises and computes
the filtered required list. -/
theorem missingKeysE_obj (keys : List String) (cf : List (String × Json)) :
    missingKeysE keys (.obj cf) = .ok (jsonMissingSpec keys cf) := by
  induction keys with
  | nil => rfl
  | cons k rest ih =>
    simp only [missingKeysE, pyContains, ih]
    cases h : cf.any (fun q => q.1 == k) <;>
      simp [jsonMissingSpec, List.filter_cons, h]

/-- On a candidate object the `matching_keys` loop never raises and counts
the expected entries hit in the candidate. -/
theorem matchingCountE_obj (ef cf : List (String × Json)) :
    matchingCountE ef (.obj cf) = .ok (ef.countP (jsonKeyHit cf)) := by
  induction ef with
  | nil => rfl
  | cons p rest ih =>
    obtain ⟨k, v⟩ := p
    simp only [matchingCountE, pyContains, pyGetItem, ih]
    cases hfind : cf.find? (fun q => q.1 == k) with
    | none =>
      have hany : cf.any (fun q => q.1 == k) = false := by
        rw [Bool.eq_false_iff]
        intro hx
        obtain ⟨x, hmem, hpx⟩ := List.any_eq_true.mp hx
        exact absurd hpx (by simpa using List.find?_eq_none.mp hfind x hmem)
      simp [hany, List.countP_cons, jsonKeyHit, jsonLookup, hfind]
    | some w =>
      have hpw := List.find?_some hfind
      have hany : cf.any (fun q => q.1 == k) = true :=
        List.any_eq_true.mpr ⟨w, List.mem_of_find?_eq_some hfind, hpw⟩
      simp [hany, hfind, List.countP_cons, jsonKeyHit, jsonLookup, add_comm]

/-- On candidate and expected objects the partial-mode score computation
never raises and equals the claim-side formula. -/
theorem jsonPartialScoreE_obj (required_keys : List String) (cf ef : List (String × Json)) :
    jsonPartialScoreE required_keys (.obj cf) (.obj ef) (jsonMissingSpec required_keys cf)
      = .ok (jsonSimilaritySpec required_keys cf ef) := by
  simp only [jsonPartialScoreE, pyLen, pyItems, matchingCountE_obj, jsonSimilaritySpec]
  rw [apply_ite Except.ok]

/-- Partial-mode evaluation on candidate and expected objects, in closed
form: never raises, scores by the claim-side formula, and passes exactly at
score at least 0.8 with no missing required key. -/
theorem json_match_partial_eval (required_keys : List String) (cf ef : List (String × Json)) :
    ∃ r, JSONMatchEvaluator.evaluate false required_keys (.ok (.obj cf)) (.ok (.obj ef)) = .ok r
      ∧ r.score = .num (jsonSimilaritySpec required_keys cf ef)
      ∧ (r.passed = true
          ↔ (jsonSimilaritySpec required_keys cf ef ≥ 4/5
             ∧ jsonMissingSpec required_keys cf = [])) := by
  simp only [JSONMatchEvaluator.evaluate, missingKeysE_obj, jsonPartialScoreE_obj, pyKeys,
    Bool.false_eq_true, if_false]
  exact ⟨_, rfl, rfl, by simp [EvalResult.passed, List.isEmpty_iff]⟩

/-- C2: in partial mode, on a parsed candidate object and expected object,
the score is (matching expected keys + present required keys) divided by
(expected keys + required keys), 1 on a zero denominator, and the evaluation
passes exactly when the score is at least 0.8 and no required key is
missing; in particular candidate `{"a":1}` against expected `{"a":1,"b":2}`
with required keys `["a"]` scores 2/3 and does not pass. -/
theorem json_match_partial_mode :
    (∀ (required_keys : List String) (cf ef : List (String × Json)),
      ∃ r, JSONMatchEvaluator.evaluate false required_keys (.ok (.obj cf)) (.ok (.obj ef)) = .ok r
        ∧ r.score = .num (jsonSimilaritySpec required_keys cf ef)
        ∧ (r.passed = true
            ↔ (jsonSimilaritySpec required_keys cf ef ≥ 4/5
               ∧ jsonMissingSpec required_keys cf = [])))
    ∧ (∃ r, JSONMatchEvaluator.evaluate false ["a"]
          (.ok (.obj [("a", .num 1)])) (.ok (.obj [("a", .num 1), ("b", .num 2)])) = .ok r
        ∧ r.score = .num (2/3) ∧ r.passed = false) := by
  refine ⟨json_match_partial_eval, ?_⟩
  obtain ⟨r, he, hs, hp⟩ :=
    json_match_partial_eval ["a"] [("a", .num 1)] [("a", .num 1), ("b", .num 2)]
  have h1 : jsonKeyHit [("a", Json.num 1)] ("a", Json.num 1) = true := by
    have hpy : pyEq (Json.num 1) (Json.num 1) = true := by simp [pyEq]
    simp [jsonKeyHit, jsonLookup, hpy]
  have h2 : jsonKeyHit [("a", Json.num 1)] ("b", Json.num 2) = false := rfl
  have h3 : jsonMissingSpec ["a"] [("a", Json.num 1)] = [] := rfl
  have hsim : jsonSimilaritySpec ["a"] [("a", .num 1)] [("a", .num 1), ("b", .num 2)] = 2/3 := by
    rw [jsonSimilaritySpec]
    simp [h1, h2, h3, List.countP_cons, List.countP_nil]
    norm_num
  refine ⟨r, he, by rw [hs, hsim], ?_⟩
  rw [Bool.eq_false_iff]
  intro ht
  have hge := (hp.mp ht).1
  rw [hsim] at hge
  norm_num at hge

/-- C6: on a parsed response object with well-formed confidence and
reasoning fields, head-to-head maps winner `"A"` to score 1.0 passing,
winner `"B"` to score 0.0 failing, and winner `"Tie"` to score 0.5 passing
exactly when the side scores differ by at most 1. -/
theorem head_to_head_mapping (alternative criteria : String)
    (fields : List (String × Json)) (qc : ℚ) (rs : Option String)
    (hc : toNumber (jsonGetD fields "confidence" (.num 1)) = .ok qc)
    (hr : toOptStr (jsonGetD fields "reasoning" (.str "No reasoning provided")) = .ok rs) :
    (jsonGetD fields "winner" (.str "Tie") = .str "A" →
      ∃ r, HeadToHeadEvaluator.evaluate alternative criteria (.ok (.obj fields)) = .ok r
        ∧ r.score = .num 1 ∧ r.passed = true)
    ∧ (jsonGetD fields "winner" (.str "Tie") = .str "B" →
      ∃ r, HeadToHeadEvaluator.evaluate alternative criteria (.ok (.obj fields)) = .ok r
        ∧ r.score = .num 0 ∧ r.passed = false)
    ∧ (∀ qa qb : ℚ, jsonGetD fields "winner" (.str "Tie") = .str "Tie" →
      toNumber (jsonGetD fields "response_a_score" (.num 3)) = .ok qa →
      toNumber (jsonGetD fields "response_b_score" (.num 3)) = .ok qb →
      ∃ r, HeadToHeadEvaluator.evaluate alternative criteria (.ok (.obj fields)) = .ok r
        ∧ r.score = .num (1/2) ∧ (r.passed = true ↔ |qa - qb| ≤ 1)) := by
  refine ⟨?_, ?_, ?_⟩
  · intro hw
    simp only [HeadToHeadEvaluator.evaluate, HeadToHeadEvaluator.tryBody, asDict, hw, hc, hr]
    simp [pyEq]
    exact ⟨rfl, rfl⟩
  · intro hw
    simp only [HeadToHeadEvaluator.evaluate, HeadToHeadEvaluator.tryBody, asDict, hw, hc, hr]
    simp [pyEq]
    exact ⟨rfl, rfl⟩
  · intro qa qb hw ha hb
    simp only [HeadToHeadEvaluator.evaluate, HeadToHeadEvaluator.tryBody, asDict,
      hw, hc, hr, ha, hb]
    simp [pyEq]
    exact ⟨rfl, by simp [EvalResult.passed]⟩

/-- A tie response with side scores 4 and 3, as in the specification's
example. -/
def hthTieFields : List (String × Json) :=
  [("winner", .str "Tie"), ("response_a_score", .num 4), ("response_b_score", .num 3)]

/-- Witness for C6: on the tie response with side scores 4 and 3 the theorem
applies, giving score 0.5 with the pass condition `|4 - 3| ≤ 1`. -/
theorem head_to_head_mapping_witness :
    toNumber (jsonGetD hthTieFields "confidence" (.num 1)) = .ok 1
    ∧ jsonGetD hthTieFields "winner" (.str "Tie") = .str "Tie"
    ∧ (∃ r, HeadToHeadEvaluator.evaluate "alt" "overall quality" (.ok (.obj hthTieFields)) = .ok r
        ∧ r.score = .num (1/2) ∧ (r.passed = true ↔ |(4 : ℚ) - 3| ≤ 1)) :=
  ⟨rfl, rfl,
    (head_to_head_mapping "alt" "overall quality" hthTieFields 1
      (some "No reasoning provided") rfl rfl).2.2 4 3 rfl rfl rfl⟩

/-- C9: a parsed judge response missing the required numeric fields is not
treated as malformed: criteria grading defaults `overall_score` to 0, giving
a normal result with score 0.0 and passed false and the summary as
reasoning, and head-to-head defaults each missing side score to 3, so a
response with no winner and no side scores ties with score 0.5 and passes
(`|3 - 3| ≤ 1`) with the defaulted side score recorded in metadata. -/
theorem judge_missing_fields_defaults :
    (∀ (provider model : String) (criteria : List (String × String))
       (fields : List (String × Json)) (rs : Option String),
       jsonLookup fields "overall_score" = none →
       toOptStr (jsonGetD fields "summary" (.str "No summary provided")) = .ok rs →
       ∃ r, CriteriaEvaluator.evaluate provider model criteria (.ok (.obj fields)) = .ok r
         ∧ r.score = .num 0 ∧ r.passed = false ∧ r.reasoning = rs)
    ∧ (∀ (alternative criteria : String) (fields : List (String × Json)) (rs : Option String),
       jsonLookup fields "winner" = none →
       jsonLookup fields "response_a_score" = none →
       jsonLookup fields "response_b_score" = none →
       jsonLookup fields "confidence" = none →
       toOptStr (jsonGetD fields "reasoning" (.str "No reasoning provided")) = .ok rs →
       ∃ r, HeadToHeadEvaluator.evaluate alternative criteria (.ok (.obj fields)) = .ok r
         ∧ r.score = .num (1/2) ∧ r.passed = true
         ∧ ("response_a_score", MetaVal.js (.num 3)) ∈ r.metadata) := by
  constructor
  · intro provider model criteria fields rs ho hs
    simp only [CriteriaEvaluator.evaluate, CriteriaEvaluator.tryBody, asDict, hs]
    simp only [jsonGetD, ho, Option.getD_none, toNumber]
    have hd : decide ((0 : ℚ)/5 ≥ 3/5) = false := by norm_num
    simp [hd, EvalResult.score, EvalResult.passed, EvalResult.reasoning]
  · intro alternative criteria fields rs hw ha hb hc hr
    simp only [HeadToHeadEvaluator.evaluate, HeadToHeadEvaluator.tryBody, asDict, hr]
    simp only [jsonGetD, hw, ha, hb, hc, Option.getD_none, toNumber]
    simp [pyEq]
    exact ⟨rfl, rfl, by simp [EvalResult.metadata]⟩

/-- A judge response carrying only a summary. -/
def critFields : List (String × Json) :=
  [("summary", .str "adequate")]

/-- Witness for C9: a criteria response with only a summary and a
head-to-head response with no fields at all both fall back to the documented
defaults. -/
theorem judge_missing_fields_defaults_witness :
    jsonLookup critFields "overall_score" = none
    ∧ toOptStr (jsonGetD critFields "summary" (.str "No summary provided"))
        = .ok (some "adequate")
    ∧ (∃ r, CriteriaEvaluator.evaluate "openai" "gpt-4" [("accuracy", "facts are right")]
          (.ok (.obj critFields)) = .ok r
        ∧ r.score = .num 0 ∧ r.passed = false ∧ r.reasoning = some "adequate")
    ∧ (∃ r, HeadToHeadEvaluator.evaluate "alt" "overall quality" (.ok (.obj [])) = .ok r
        ∧ r.score = .num (1/2) ∧ r.passed = true
        ∧ ("response_a_score", MetaVal.js (.num 3)) ∈ r.metadata) :=
  ⟨rfl, rfl,
    judge_missing_fields_defaults.1 "openai" "gpt-4" [("accuracy", "facts are right")]
      critFields (some "adequate") rfl rfl,
    judge_missing_fields_defaults.2 "alt" "overall quality" []
      (some "No reasoning provided") rfl rfl rfl rfl rfl⟩

/-- Counterexample to C10: a parsed response with no winner field but a
non-numeric side score does not produce the tie score 0.5 — the `TypeError`
from the side-score subtraction is caught and the caught-error result with
score 0.0 is returned instead. -/
theorem head_to_head_nonnumeric_side_cex :
    HeadToHeadEvaluator.evaluate "" "" (.ok (.obj [("response_a_score", .str "high")]))
      = .ok (.mk (.num 0)
          (some ("Head-to-head evaluation failed: " ++ "TypeError: unsupported operand type"))
          [("error", .s "TypeError: unsupported operand type")] false)
    ∧ Score.num 0 ≠ Score.num (1/2) := by
  constructor
  · simp [HeadToHeadEvaluator.evaluate, HeadToHeadEvaluator.tryBody, asDict, jsonGetD,
      jsonLookup, toNumber, toOptStr, pyEq]
  · intro h
    rw [Score.num.injEq] at h
    norm_num at h

/-- C10 (amended): on a parsed response object whose winner field is absent
or anything other than exactly `"A"` or `"B"`, provided the confidence and
side-score fields are absent or numeric and the reasoning field is absent or
textual, head-to-head takes the tie branch: score 0.5 and passed exactly
when the (defaulted) side scores differ by at most 1 — never a win and never
a raised error. -/
theorem head_to_head_out_of_schema (alternative criteria : String)
    (fields : List (String × Json)) (qa qb qc : ℚ) (rs : Option String)
    (hA : pyEq (jsonGetD fields "winner" (.str "Tie")) (.str "A") = false)
    (hB : pyEq (jsonGetD fields "winner" (.str "Tie")) (.str "B") = false)
    (ha : toNumber (jsonGetD fields "response_a_score" (.num 3)) = .ok qa)
    (hb : toNumber (jsonGetD fields "response_b_score" (.num 3)) = .ok qb)
    (hc : toNumber (jsonGetD fields "confidence" (.num 1)) = .ok qc)
    (hr : toOptStr (jsonGetD fields "reasoning" (.str "No reasoning provided")) = .ok rs) :
    ∃ r, HeadToHeadEvaluator.evaluate alternative criteria (.ok (.obj fields)) = .ok r
      ∧ r.score = .num (1/2) ∧ (r.passed = true ↔ |qa - qb| ≤ 1) := by
  simp only [HeadToHeadEvaluator.evaluate, HeadToHeadEvaluator.tryBody, asDict,
    hA, hB, ha, hb, hc, hr]
  simp
  exact ⟨rfl, by simp [EvalResult.passed]⟩

/-- A response whose winner field holds the out-of-schema value `"C"`. -/
def hthOddFields : List (String × Json) :=
  [("winner", .str "C")]

/-- Witness for C10 (amended): a winner value of `"C"` with all other fields
missing ties at score 0.5 with defaulted side scores 3 and 3. -/
theorem head_to_head_out_of_schema_witness :
    pyEq (jsonGetD hthOddFields "winner" (.str "Tie")) (.str "A") = false
    ∧ pyEq (jsonGetD hthOddFields "winner" (.str "Tie")) (.str "B") = false
    ∧ (∃ r, HeadToHeadEvaluator.evaluate "alt" "overall quality" (.ok (.obj hthOddFields)) = .ok r
        ∧ r.score = .num (1/2) ∧ (r.passed = true ↔ |(3 : ℚ) - 3| ≤ 1)) :=
  ⟨by simp [hthOddFields, jsonGetD, jsonLookup, pyEq],
   by simp [hthOddFields, jsonGetD, jsonLookup, pyEq],
   head_to_head_out_of_schema "alt" "overall quality" hthOddFields 3 3 1
     (some "No reasoning provided")
     (by simp [hthOddFields, jsonGetD, jsonLookup, pyEq])
     (by simp [hthOddFields, jsonGetD, jsonLookup, pyEq]) rfl rfl rfl rfl⟩
